import Mathlib

/-!
Shallow embedding of the tenant runtime core (`edb/server/tenant.py`) of the
EdgeDB server, together with proofs of the specification claims about it.

Conventions:
* Python `bytes` values are `List Nat` (each element a byte value).
* Python dictionaries are association lists (`List (K × V)`) manipulated by
  `lookupA` / `assocSet` below, mirroring `dict.get` and `dict.__setitem__`.
* Awaitable external effects (the physical backend, the pool, the file
  system) are passed in as explicit oracle arguments, so each coroutine
  becomes a pure function of its inputs and the observable scheduling of its
  suspension points.
* Raising an exception is modelled with `Except`.
-/

namespace TenantCore

/-- Association-list lookup with decidable key equality, mirroring Python
`dict.get` (`none` when the key is absent). -/
def lookupA {K V : Type} [DecidableEq K] : List (K × V) → K → Option V
  | [], _ => none
  | (k, v) :: rest, k0 => if k = k0 then some v else lookupA rest k0

/-- Association-list update mirroring Python `d[k] = v`: replace the value of
an existing key, otherwise add a new binding. -/
def assocSet {K V : Type} [DecidableEq K] : List (K × V) → K → V → List (K × V)
  | [], k0, v0 => [(k0, v0)]
  | (k, v) :: rest, k0, v0 =>
    if k = k0 then (k0, v0) :: rest else (k, v) :: assocSet rest k0 v0

/-- Set insertion on a list of strings, mirroring Python `set.add`. -/
def insertStr (x : String) (s : List String) : List String :=
  if x ∈ s then s else x :: s

/-- Set removal on a list of strings, mirroring Python `set.discard`. -/
def removeStr (x : String) (s : List String) : List String :=
  s.filter (fun y => y ≠ x)

/-! ## Backend connections and `_pg_connect` (tenant.py lines 430-463) -/

/-- A physical backend connection (`pgcon.PGConnection`), reduced to the
observable flags the tenant code manipulates: the tenant back-reference set
by `set_tenant`, the `terminate()` flag, the statement-cache size set by
`set_stmt_cache_size`, and the health bit reported by `is_healthy()`. -/
structure PGConnection where
  connId : Nat := 0
  tenantSet : Bool := false
  terminated : Bool := false
  stmtCacheSize : Option Nat := none
  healthy : Bool := true
  deriving DecidableEq, Repr

/-- Errors that `_pg_connect` can raise: a failure of the underlying
`pgcon.connect`, or the `ConnectionError` raised on an HA-serial mismatch.
The latter carries the message and the (terminated) fresh connection so the
disposition of that connection is observable. -/
inductive PgConnectError where
  | connectFailed
  | outdatedMaster (msg : String) (conn : PGConnection)
  deriving DecidableEq, Repr

/-- The exact `ConnectionError` message of `_pg_connect`. -/
def outdatedMasterMsg : String := "connected to outdated Postgres master"

/-- The statement-cache-size adjustment performed right after a successful
`pgcon.connect` when `self._server.stmt_cache_size is not None`. -/
def applyStmtCacheSize (serverStmtCacheSize : Option Nat) (c : PGConnection) :
    PGConnection :=
  match serverStmtCacheSize with
  | some n => { c with stmtCacheSize := some n }
  | none => c

/-- Embedding of `Tenant._pg_connect`. `serialAtStart` is the value of
`self._ha_master_serial` read on entry; `serialAtEnd` is its value when the
`await pgcon.connect(...)` completes (a failover during the await bumps it).
`attempt` is the outcome of `pgcon.connect`: `none` when it raised (the
exception propagates after metrics accounting, which is elided along with
the physical-dbname mapping), `some rv` when it produced a connection. -/
def pg_connect (serialAtStart serialAtEnd : Nat)
    (serverStmtCacheSize : Option Nat) (attempt : Option PGConnection) :
    Except PgConnectError PGConnection :=
  match attempt with
  | none => .error .connectFailed
  | some rv0 =>
    let rv := applyStmtCacheSize serverStmtCacheSize rv0
    if serialAtStart = serialAtEnd then
      .ok { rv with tenantSet := true }
    else
      .error (.outdatedMaster outdatedMasterMsg { rv with terminated := true })

/-! ## `set_pg_unavailable_msg` (tenant.py lines 655-657) -/

/-- Embedding of `Tenant.set_pg_unavailable_msg`: the new value of
`self._pg_unavailable_msg` as a function of the current value and the
argument. The assignment happens only when `msg is None` or the current
message `is None`. -/
def set_pg_unavailable_msg (current msg : Option String) : Option String :=
  if msg = none ∨ current = none then msg else current

/-- Folding a whole sequence of `set_pg_unavailable_msg` calls over an
initial state. -/
def run_unavailable_msgs (current : Option String)
    (msgs : List (Option String)) : Option String :=
  msgs.foldl set_pg_unavailable_msg current

/-! ## `is_database_connectable` (tenant.py lines 702-706) -/

/-- The name of the template database (`defines.EDGEDB_TEMPLATE_DB`).
Modelled from the spec: the `defines` module is not part of the sources; the
claims depend only on this being a fixed distinguished name. -/
def EDGEDB_TEMPLATE_DB : String := "__edgedbtpl__"

/-- The name of the system database (`defines.EDGEDB_SYSTEM_DB`).
Modelled from the spec: the `defines` module is not part of the sources. -/
def EDGEDB_SYSTEM_DB : String := "__edgedbsys__"

/-- Embedding of `Tenant.is_database_connectable`, a pure function of the
requested name and the `_block_new_connections` set. -/
def is_database_connectable (blockNewConnections : List String)
    (dbname : String) : Bool :=
  (dbname != EDGEDB_TEMPLATE_DB) && !(blockNewConnections.contains dbname)

/-! ## `check_jwt` (tenant.py lines 1048-1073) -/

/-- Message raised when the sub allowlist is configured and the token has no
usable `sub` claim. -/
def jwtNoSubjectMsg : String :=
  "authentication failed: JWT does not contain a valid subject claim"

/-- Message raised when the `sub` claim is not in the allowlist. -/
def jwtUnauthorizedMsg : String := "authentication failed: unauthorized subject"

/-- Message raised when the revocation list is configured and the token has
no usable `jti` claim. -/
def jwtNoKeyIdMsg : String :=
  "authentication failed: JWT does not contain a valid key id"

/-- Message raised when the `jti` claim is in the revocation list. -/
def jwtRevokedMsg : String := "authentication failed: revoked key"

/-- First half of `Tenant.check_jwt`: the `_jwt_sub_allowlist` block.
Python's `if not subject` is true for a missing claim and for the empty
string. -/
def checkJwtSub (jwt_sub_allowlist : Option (List String))
    (claims : List (String × String)) : Except String Unit :=
  match jwt_sub_allowlist with
  | none => .ok ()
  | some allowlist =>
    match lookupA claims "sub" with
    | none => .error jwtNoSubjectMsg
    | some subject =>
      if subject = "" then .error jwtNoSubjectMsg
      else if subject ∈ allowlist then .ok ()
      else .error jwtUnauthorizedMsg

/-- Second half of `Tenant.check_jwt`: the `_jwt_revocation_list` block. -/
def checkJwtJti (jwt_revocation_list : Option (List String))
    (claims : List (String × String)) : Except String Unit :=
  match jwt_revocation_list with
  | none => .ok ()
  | some revocation =>
    match lookupA claims "jti" with
    | none => .error jwtNoKeyIdMsg
    | some key_id =>
      if key_id = "" then .error jwtNoKeyIdMsg
      else if key_id ∈ revocation then .error jwtRevokedMsg
      else .ok ()

/-- Embedding of `Tenant.check_jwt`: the sub-allowlist block runs first and
its exception short-circuits the jti block. Errors are modelled by the
`AuthenticationError` message. -/
def check_jwt (jwt_sub_allowlist jwt_revocation_list : Option (List String))
    (claims : List (String × String)) : Except String Unit :=
  match checkJwtSub jwt_sub_allowlist claims with
  | .error e => .error e
  | .ok () => checkJwtJti jwt_revocation_list claims

/-! ## `reload_readiness_state` (tenant.py lines 1075-1117) and
`is_online` (lines 241-242) -/

/-- The readiness states. Modelled from the spec: `srvargs.ReadinessState`
is not part of the sources; the spec gives the four states and the file
format `state[:reason]` with the lowercase state names. -/
inductive ReadinessState where
  | Default
  | ReadOnly
  | Offline
  | Blocked
  deriving DecidableEq, Repr

/-- Modelled from the spec: the `srvargs.ReadinessState(state)` enum-by-value
constructor; an unknown value raises `ValueError`, modelled as `none`. -/
def parseReadinessState (s : String) : Option ReadinessState :=
  if s = "default" then some .Default
  else if s = "read_only" then some .ReadOnly
  else if s = "offline" then some .Offline
  else if s = "blocked" then some .Blocked
  else none

/-- Embedding of `Tenant.is_online`: the readiness state is not `Offline`. -/
def is_online (readiness : ReadinessState) : Bool :=
  readiness != ReadinessState.Offline

/-- The tenant fields that `reload_readiness_state` reads and writes. -/
structure ReadinessFields where
  readiness_state_file : Option String
  readiness : ReadinessState
  readiness_reason : String
  accepting_connections : Bool
  deriving DecidableEq, Repr

/-- Outcome of `open(self._readiness_state_file)` + `readline()`:
the first line of the file, or `FileNotFoundError`, or any other I/O
exception. -/
inductive FileReadResult where
  | content (line : String)
  | fileNotFound
  | ioError
  deriving DecidableEq, Repr

/-- Python `line.partition(":")`, keeping the parts before and after the
first colon (the separator itself is dropped as in the source, which
discards the middle component). -/
def partitionColon (line : String) : String × String :=
  match line.splitOn ":" with
  | [] => (line, "")
  | x :: rest => (x, String.intercalate ":" rest)

/-- Embedding of `Tenant.reload_readiness_state`. If no readiness state file
is configured the method returns immediately. Otherwise the file read
outcome is the `fileRead` oracle; on a valid line both `_readiness` and
`_readiness_reason` are set, on a `ValueError` / missing file / other I/O
error only `_readiness` is reset to `Default`; in every one of these paths
the method finally sets `_accepting_connections = self.is_online()`. -/
def reload_readiness_state (st : ReadinessFields) (fileRead : FileReadResult) :
    ReadinessFields :=
  match st.readiness_state_file with
  | none => st
  | some _ =>
    let st1 :=
      match fileRead with
      | .content rawLine =>
        let line := rawLine.trim
        let p := partitionColon line
        match parseReadinessState p.1 with
        | some state => { st with readiness := state, readiness_reason := p.2 }
        | none => { st with readiness := .Default }
      | .fileNotFound => { st with readiness := .Default }
      | .ioError => { st with readiness := .Default }
    { st1 with accepting_connections := is_online st1.readiness }

/-! ## `acquire_pgcon` (tenant.py lines 659-678) -/

/-- The `BackendUnavailableError` message built from `_pg_unavailable_msg`. -/
def pgNotAvailableMsg (m : String) : String := "Postgres is not available: " ++ m

/-- The `BackendUnavailableError` message of the `for`-`else` branch. -/
def noHealthyPgconMsg : String :=
  "No healthy backend connection available at the moment, please try again."

/-- The `for _ in range(max_capacity)` loop of `acquire_pgcon`: the first
argument of the recursion is the remaining iteration budget, the second the
index of the next pool acquisition. `pool i` is the connection handed out by
the i-th `await self._pg_pool.acquire(dbname)`. Returns the overall outcome
paired with the list of connections released back with `discard=True`, in
order. -/
def acquireLoop (pool : Nat → PGConnection) :
    Nat → Nat → Except String PGConnection × List PGConnection
  | 0, _ => (.error noHealthyPgconMsg, [])
  | n + 1, i =>
    let conn := pool i
    if conn.healthy then (.ok conn, [])
    else
      let r := acquireLoop pool n (i + 1)
      (r.1, conn :: r.2)

/-- Embedding of `Tenant.acquire_pgcon`: fail immediately when
`_pg_unavailable_msg` is set, otherwise run the bounded acquire loop. -/
def acquire_pgcon (pg_unavailable_msg : Option String) (max_capacity : Nat)
    (pool : Nat → PGConnection) :
    Except String PGConnection × List PGConnection :=
  match pg_unavailable_msg with
  | some m => (.error (pgNotAvailableMsg m), [])
  | none => acquireLoop pool max_capacity 0

/-! ## `_reconnect_sys_pgcon` (tenant.py lines 580-634) -/

/-- SQLSTATE of `pgcon_errors.ERROR_FEATURE_NOT_SUPPORTED`. Modelled from
the spec: the `pgcon.errors` module is not part of the sources; the claims
depend only on these codes being fixed and pairwise distinct. -/
def ERROR_FEATURE_NOT_SUPPORTED : String := "0A000"

/-- SQLSTATE of `pgcon_errors.ERROR_CANNOT_CONNECT_NOW`. Modelled from the
spec, as above. -/
def ERROR_CANNOT_CONNECT_NOW : String := "57P03"

/-- SQLSTATE of `pgcon_errors.ERROR_READ_ONLY_SQL_TRANSACTION`. Modelled
from the spec, as above. -/
def ERROR_READ_ONLY_SQL_TRANSACTION : String := "25006"

/-- SQLSTATE of `pgcon_errors.ERROR_INVALID_CATALOG_NAME`. Modelled from
the spec, as above. -/
def ERROR_INVALID_CATALOG_NAME : String := "3D000"

/-- Outcome of one `await self._pg_connect(defines.EDGEDB_SYSTEM_DB)` inside
the reconnect loop: success, an `OSError`, or a `pgcon_errors.BackendError`
carrying its SQLSTATE code. -/
inductive SysConnectAttempt where
  | ok (conn : PGConnection)
  | osError
  | backendError (code : String)
  deriving DecidableEq, Repr

/-- The retryability test of the `except BackendError` clause in
`_reconnect_sys_pgcon` (the negation of its re-raise condition). -/
def retryableBackendCode (code : String) : Bool :=
  code == ERROR_FEATURE_NOT_SUPPORTED || code == ERROR_CANNOT_CONNECT_NOW ||
    code == ERROR_READ_ONLY_SQL_TRANSACTION

/-- Result of the `while self._running` loop of `_reconnect_sys_pgcon` over
a finite trace of attempt outcomes, with `self._running` held true
throughout: either some attempt succeeded, or a fatal backend error was
re-raised out of the loop, or the trace ended with the loop still
retrying. -/
inductive ReconnectOutcome where
  | connected (conn : PGConnection)
  | fatal (code : String)
  | stillRetrying
  deriving DecidableEq, Repr

/-- Embedding of the retry classification of `_reconnect_sys_pgcon`:
`OSError` is swallowed and retried; a `BackendError` is retried exactly for
the three enumerated codes and re-raised (fatal) otherwise; a successful
attempt breaks out of the loop. -/
def reconnectLoop : List SysConnectAttempt → ReconnectOutcome
  | [] => .stillRetrying
  | .ok conn :: _ => .connected conn
  | .osError :: rest => reconnectLoop rest
  | .backendError code :: rest =>
    if retryableBackendCode code then reconnectLoop rest else .fatal code

/-- The reconnect backoff interval (`defines.SYSTEM_DB_RECONNECT_INTERVAL`),
in seconds. Modelled from the spec: the `defines` module is not part of the
sources; the claims depend only on it being a fixed positive bound. -/
def SYSTEM_DB_RECONNECT_INTERVAL : ℚ := 1

/-- The inter-attempt wait of `_reconnect_sys_pgcon`:
`asyncio.wait_for(self._sys_pgcon_reconnect_evt.wait(), INTERVAL)` followed
by `evt.clear()` on a non-timeout return. `evtFiredAt` says when (seconds
into this wait, clamped below at 0) the reconnect event gets set, if ever
during it. Returns the wait duration and whether the event is still set
when the wait ends (it is cleared when it short-circuited this wait, so it
can short-circuit at most this one wait). -/
def reconnectWait (evtFiredAt : Option ℚ) : ℚ × Bool :=
  match evtFiredAt with
  | some t =>
    if t ≤ SYSTEM_DB_RECONNECT_INTERVAL then (max t 0, false)
    else (SYSTEM_DB_RECONNECT_INTERVAL, true)
  | none => (SYSTEM_DB_RECONNECT_INTERVAL, false)

/-! ## `_load_reported_config` (tenant.py lines 918-940) -/

/-- Python `struct.pack("!L", n)` as a list of four byte values,
big-endian, with the 32-bit truncation made explicit. -/
def packBEu32 (n : Nat) : List Nat :=
  [n / 2 ^ 24 % 256, n / 2 ^ 16 % 256, n / 2 ^ 8 % 256, n % 256]

/-- Embedding of the body of `Tenant._load_reported_config`: `data` is the
value fetched by the `report_configs` system query, `typedescs` the items of
`self._server.get_report_config_typedesc()` (protocol version, type
descriptor bytes), `report0` the prior `self._report_config_data` mapping.
Each iteration stores
`struct.pack("!L", len(typedesc)) + typedesc + struct.pack("!L", len(data)) + data`
under the protocol version. -/
def load_reported_config (data : List Nat)
    (typedescs : List ((Nat × Nat) × List Nat))
    (report0 : List ((Nat × Nat) × List Nat)) :
    List ((Nat × Nat) × List Nat) :=
  typedescs.foldl
    (fun acc pv =>
      assocSet acc pv.1
        (packBEu32 pv.2.length ++ pv.2 ++ packBEu32 data.length ++ data))
    report0

/-! ## The database index and `_early_introspect_db`
(tenant.py lines 756-773 and 877-905) -/

/-- One entry of the database index (`dbview.Database`), reduced to the
fields passed to `register_db`. The early-introspection path fills only
`extensions` and leaves every other field null. -/
structure DbEntry where
  user_schema_pickle : Option (List Nat) := none
  db_config : Option (List (String × String)) := none
  reflection_cache : Option (List (String × List String)) := none
  backend_ids : Option (List (String × Nat)) := none
  extensions : List String := []
  ext_config_settings : Option (List String) := none
  deriving DecidableEq, Repr

/-- The database index (`dbview.DatabaseIndex`) as its name-to-entry map.
The functions below model it as already initialized (`_early_introspect_db`
asserts `self._dbindex is not None`). -/
abbrev DbIndex := List (String × DbEntry)

/-- Embedding of `DatabaseIndex.has_db`. -/
def has_db (idx : DbIndex) (dbname : String) : Bool :=
  (lookupA idx dbname).isSome

/-- Embedding of `DatabaseIndex.register_db`: create or replace the entry. -/
def register_db (idx : DbIndex) (dbname : String) (entry : DbEntry) : DbIndex :=
  assocSet idx dbname entry

/-- Embedding of `DatabaseIndex.unregister_db`: drop the entry. -/
def unregister_db (idx : DbIndex) (dbname : String) : DbIndex :=
  idx.filter (fun p => p.1 ≠ dbname)

/-- Outcome of the `await self.acquire_pgcon(dbname)` inside
`_acquire_intro_pgcon`: a connection, a `BackendError` whose code is
`ERROR_INVALID_CATALOG_NAME` (database concurrently dropped), or any other
exception (re-raised). -/
inductive IntroAcquire where
  | acquired
  | invalidCatalog
  | otherFailure (msg : String)
  deriving DecidableEq, Repr

/-- Embedding of `Tenant._acquire_intro_pgcon`: on an invalid-catalog error
the dbname is unregistered from the index if present and `None` is
returned; other exceptions propagate; otherwise the connection is handed
back (modelled as `some ()`). -/
def acquire_intro_pgcon (idx : DbIndex) (dbname : String)
    (acq : IntroAcquire) : Except String (Option Unit) × DbIndex :=
  match acq with
  | .acquired => (.ok (some ()), idx)
  | .invalidCatalog =>
    (.ok none, if has_db idx dbname then unregister_db idx dbname else idx)
  | .otherFailure m => (.error m, idx)

/-- Embedding of `Tenant._early_introspect_db`. `introspectedExtensions` is
the result of `await self._introspect_extensions(conn)`; `concurrentReg` is
an entry registered for the same dbname by a concurrent introspection task
during that await (the race the second `has_db` check guards against),
`none` when no such task ran. The `finally: release_pgcon` only touches the
pool, so the returned state is the index alone. -/
def early_introspect_db (idx : DbIndex) (dbname : String) (acq : IntroAcquire)
    (introspectedExtensions : List String) (concurrentReg : Option DbEntry) :
    Except String Unit × DbIndex :=
  match acquire_intro_pgcon idx dbname acq with
  | (.error e, idx1) => (.error e, idx1)
  | (.ok none, idx1) => (.ok (), idx1)
  | (.ok (some _), idx1) =>
    if has_db idx1 dbname then (.ok (), idx1)
    else
      let idx2 :=
        match concurrentReg with
        | some e => register_db idx1 dbname e
        | none => idx1
      if has_db idx2 dbname then (.ok (), idx2)
      else (.ok (), register_db idx2 dbname { extensions := introspectedExtensions })

/-! ## `ensure_database_not_connected` (tenant.py lines 708-754) -/

/-- Errors arising inside `ensure_database_not_connected`: the domain
`errors.ExecutionError` (the only class the retry loop ignores) and any
other exception, both carrying their message. -/
inductive DDLError where
  | executionError (msg : String)
  | otherError (msg : String)
  deriving DecidableEq, Repr

/-- The `ExecutionError` message (the Python source formats the dbname with
`!r`; the quoting is elided here). -/
def beingAccessedMsg (dbname : String) : String :=
  "database " ++ dbname ++ " is being accessed by other users"

/-- The tenant fields that `ensure_database_not_connected` reads and
writes: the per-dbname live view counts of the index
(`none` when `self._dbindex` is still `None`), the
`_block_new_connections` set, the pool's idle connections (dbname paired
with a connection id), and the emitted sysevents in order. -/
structure EnsureState where
  dbindexViews : Option (List (String × Nat))
  block_new_connections : List String
  poolIdle : List (String × Nat)
  sysevents : List (String × String)
  deriving DecidableEq, Repr

/-- Embedding of `DatabaseIndex.count_connections`: the number of live views
against the entry (0 for an unknown dbname). -/
def count_connections (views : List (String × Nat)) (dbname : String) : Nat :=
  (lookupA views dbname).getD 0

/-- The guard `self._dbindex and self._dbindex.count_connections(dbname)`:
a missing index counts as zero. -/
def viewCount (st : EnsureState) (dbname : String) : Nat :=
  match st.dbindexViews with
  | none => 0
  | some views => count_connections views dbname

/-- Embedding of `Pool.prune_inactive_connections(dbname)` on the idle set:
drop the idle connections of that database. -/
def prune_inactive_connections (poolIdle : List (String × Nat))
    (dbname : String) : List (String × Nat) :=
  poolIdle.filter (fun p => p.1 ≠ dbname)

/-- Embedding of `Tenant._pg_ensure_database_not_connected`: `fetched` is
the outcome of the `pg_stat_activity` query for `dbname` over the system
connection (a pid list, or a propagated failure); a non-empty pid list
raises `ExecutionError`. -/
def pg_ensure_database_not_connected (dbname : String)
    (fetched : Except DDLError (List Nat)) : Except DDLError Unit :=
  match fetched with
  | .error e => .error e
  | .ok conns =>
    if conns = [] then .ok ()
    else .error (.executionError (beingAccessedMsg dbname))

/-- Modelled from the spec: `retryloop.exp_backoff()` (the `edb.common.retryloop`
module is not part of the sources) — the wait before retry i+1, exponential
in the iteration index, in seconds. -/
def expBackoff (i : Nat) : ℚ := 2 ^ i

/-- Modelled from the spec: the `retryloop.RetryLoop` driver with
`ignore=ExecutionError` — run the body; on an `ExecutionError`, sleep
`backoff i` and retry provided the total elapsed time stays within the
timeout, otherwise re-raise; any other error propagates at once. `fuel`
makes the recursion structural; with a 10-second timeout and `expBackoff`
the timeout stops the loop after at most 4 attempts, so any fuel ≥ 4 yields
the same result. -/
def retryGo (body : Nat → Except DDLError Unit) (backoff : Nat → ℚ)
    (timeout : ℚ) : Nat → Nat → ℚ → Except DDLError Unit
  | 0, i, _ => body i
  | fuel + 1, i, elapsed =>
    match body i with
    | .ok () => .ok ()
    | .error (.executionError m) =>
      if elapsed + backoff i ≤ timeout then
        retryGo body backoff timeout fuel (i + 1) (elapsed + backoff i)
      else .error (.executionError m)
    | .error e => .error e

/-- The retry loop of `ensure_database_not_connected`:
`RetryLoop(backoff=exp_backoff(), timeout=10.0, ignore=ExecutionError)`. -/
def retryLoopRun (body : Nat → Except DDLError Unit) : Except DDLError Unit :=
  retryGo body expBackoff 10 8 0 0

/-- Embedding of `Tenant.ensure_database_not_connected`. `poll i` is the
outcome of the i-th `pg_stat_activity` poll. Returns the overall outcome
and the final state. -/
def ensure_database_not_connected (st : EnsureState) (dbname : String)
    (poll : Nat → Except DDLError (List Nat)) :
    Except DDLError Unit × EnsureState :=
  if viewCount st dbname ≠ 0 then
    (.error (.executionError (beingAccessedMsg dbname)), st)
  else
    let st1 := { st with
      block_new_connections := insertStr dbname st.block_new_connections,
      poolIdle := prune_inactive_connections st.poolIdle dbname,
      sysevents := st.sysevents ++ [("ensure-database-not-used", dbname)] }
    (retryLoopRun (fun i => pg_ensure_database_not_connected dbname (poll i)),
      st1)

/-! # Theorems -/

/-- C1: in `_pg_connect(dbname)`, the tenant's `ha_master_serial` read before
the physical connection attempt is compared with its value after the attempt
completes; when they differ the fresh connection is terminated and the call
fails with `ConnectionError("connected to outdated Postgres master")`, and a
connection (with the tenant back-reference set) is returned exactly when the
two serial values are equal. -/
theorem pg_connect_ha_serial_check (serialAtStart serialAtEnd : Nat)
    (sc : Option Nat) (rv0 : PGConnection) :
    (serialAtStart ≠ serialAtEnd →
      pg_connect serialAtStart serialAtEnd sc (some rv0) =
        .error (.outdatedMaster outdatedMasterMsg
          { applyStmtCacheSize sc rv0 with terminated := true }) ∧
      ({ applyStmtCacheSize sc rv0 with terminated := true } :
        PGConnection).terminated = true) ∧
    (serialAtStart = serialAtEnd →
      pg_connect serialAtStart serialAtEnd sc (some rv0) =
        .ok { applyStmtCacheSize sc rv0 with tenantSet := true } ∧
      ({ applyStmtCacheSize sc rv0 with tenantSet := true } :
        PGConnection).tenantSet = true) := by
  refine ⟨fun h => ⟨?_, rfl⟩, fun h => ⟨?_, rfl⟩⟩
  · simp [pg_connect, h]
  · simp [pg_connect, h]

/-- Witness for C1: with the serial bumped from 0 to 1 during the attempt
the call fails with the outdated-master error on a terminated connection;
with the serial stable at 2 it returns the connection with the tenant set. -/
theorem pg_connect_ha_serial_check_witness :
    pg_connect 0 1 none (some {}) =
      .error (.outdatedMaster outdatedMasterMsg
        { ({} : PGConnection) with terminated := true }) ∧
    pg_connect 2 2 none (some {}) =
      .ok { ({} : PGConnection) with tenantSet := true } := by
  have h1 := (pg_connect_ha_serial_check 0 1 none {}).1 (by decide)
  have h2 := (pg_connect_ha_serial_check 2 2 none {}).2 rfl
  exact ⟨h1.1, h2.1⟩

/-- Helper for C8: a sequence of calls none of which passes `None` never
changes an already-set unavailable message. -/
theorem run_unavailable_msgs_retains (x : String) :
    ∀ msgs : List (Option String), none ∉ msgs →
      run_unavailable_msgs (some x) msgs = some x := by
  intro msgs
  induction msgs with
  | nil => intro _; rfl
  | cons m rest ih =>
    intro h
    rcases m with _ | y
    · exact absurd (List.mem_cons_self _ _) h
    · have hstep : run_unavailable_msgs (some x) (some y :: rest) =
          run_unavailable_msgs (some x) rest := by
        simp [run_unavailable_msgs, set_pg_unavailable_msg]
      rw [hstep]
      exact ih (fun hm => h (List.mem_cons_of_mem _ hm))

/-- C8: `set_pg_unavailable_msg` overwrites the stored message only when the
argument is `None` or the stored message is `None`; consequently the first
non-null message of a sequence of calls is retained verbatim against later
non-null messages, and a call with `None` clears it. -/
theorem set_pg_unavailable_msg_latches :
    (∀ c m : String, set_pg_unavailable_msg (some c) (some m) = some c) ∧
    (∀ c : Option String, set_pg_unavailable_msg c none = none) ∧
    (∀ m : String, set_pg_unavailable_msg none (some m) = some m) ∧
    (∀ (x : String) (msgs : List (Option String)), none ∉ msgs →
      run_unavailable_msgs (some x) msgs = some x) ∧
    (∀ (x : String) (msgs : List (Option String)), none ∉ msgs →
      run_unavailable_msgs none (some x :: msgs) = some x) := by
  refine ⟨fun c m => by simp [set_pg_unavailable_msg],
    fun c => by simp [set_pg_unavailable_msg],
    fun m => by simp [set_pg_unavailable_msg],
    fun x msgs h => run_unavailable_msgs_retains x msgs h,
    fun x msgs h => ?_⟩
  have hstep : run_unavailable_msgs none (some x :: msgs) =
      run_unavailable_msgs (some x) msgs := by
    simp [run_unavailable_msgs, set_pg_unavailable_msg]
  rw [hstep]
  exact run_unavailable_msgs_retains x msgs h

/-- Witness for C8: starting from a cleared state, the first message
"backend down" survives two later messages, and a `None` call clears the
stored message. -/
theorem set_pg_unavailable_msg_latches_witness :
    run_unavailable_msgs none
      [some "backend down", some "later", some "latest"] =
      some "backend down" ∧
    set_pg_unavailable_msg (some "backend down") none = none := by
  have h := set_pg_unavailable_msg_latches
  exact ⟨h.2.2.2.2 "backend down" [some "later", some "latest"] (by decide),
    h.2.1 (some "backend down")⟩

/-- C10: `is_database_connectable(dbname)` is true exactly when `dbname` is
neither the template database nor a member of `_block_new_connections`; in
particular the template database is never connectable, whatever the block
set contains. -/
theorem is_database_connectable_iff :
    (∀ (blockNew : List String) (dbname : String),
      is_database_connectable blockNew dbname = true ↔
        dbname ≠ EDGEDB_TEMPLATE_DB ∧ dbname ∉ blockNew) ∧
    (∀ blockNew : List String,
      is_database_connectable blockNew EDGEDB_TEMPLATE_DB = false) := by
  constructor
  · intro blockNew dbname
    simp [is_database_connectable, List.contains_iff_exists_mem_beq,
      List.elem_iff]
  · intro blockNew
    simp [is_database_connectable]

/-- Helper for C4: characterization of the sub-allowlist block. -/
theorem checkJwtSub_ok_iff (al : Option (List String))
    (claims : List (String × String)) :
    checkJwtSub al claims = .ok () ↔
      ∀ l, al = some l →
        ∃ s, lookupA claims "sub" = some s ∧ s ≠ "" ∧ s ∈ l := by
  rcases al with _ | allowlist
  · simp [checkJwtSub]
  · cases hs : lookupA claims "sub" with
    | none => simp [checkJwtSub, hs]
    | some subject =>
      by_cases he : subject = ""
      · simp [checkJwtSub, hs, he]
      · by_cases hm : subject ∈ allowlist
        · simp [checkJwtSub, hs, he, hm]
        · simp only [checkJwtSub, hs, if_neg he, if_neg hm]
          constructor
          · intro h; cases h
          · rintro h
            rcases h allowlist rfl with ⟨s, hs2, -, hmem⟩
            cases hs2
            exact absurd hmem hm

/-- Helper for C4: characterization of the revocation-list block. -/
theorem checkJwtJti_ok_iff (rl : Option (List String))
    (claims : List (String × String)) :
    checkJwtJti rl claims = .ok () ↔
      ∀ l, rl = some l →
        ∃ s, lookupA claims "jti" = some s ∧ s ≠ "" ∧ s ∉ l := by
  rcases rl with _ | revocation
  · simp [checkJwtJti]
  · cases hs : lookupA claims "jti" with
    | none => simp [checkJwtJti, hs]
    | some key_id =>
      by_cases he : key_id = ""
      · simp [checkJwtJti, hs, he]
      · by_cases hm : key_id ∈ revocation
        · simp only [checkJwtJti, hs, if_neg he, if_pos hm]
          constructor
          · intro h; cases h
          · rintro h
            rcases h revocation rfl with ⟨s, hs2, -, hmem⟩
            cases hs2
            exact absurd hm hmem
        · simp [checkJwtJti, hs, he, hm]

/-- Helper for C4: `check_jwt` succeeds exactly when both blocks do. -/
theorem check_jwt_eq_ok (al rl : Option (List String))
    (claims : List (String × String)) :
    check_jwt al rl claims = .ok () ↔
      (checkJwtSub al claims = .ok () ∧ checkJwtJti rl claims = .ok ()) := by
  unfold check_jwt
  cases hs : checkJwtSub al claims with
  | error e => simp [hs]
  | ok u => cases u; simp

/-- C4: `check_jwt` returns without error exactly when: if the sub
allowlist is configured, the `sub` claim is present, non-empty and in the
allowlist, and if the revocation list is configured, the `jti` claim is
present, non-empty and not in the revocation list; otherwise it raises
`AuthenticationError`. -/
theorem check_jwt_ok_iff (al rl : Option (List String))
    (claims : List (String × String)) :
    check_jwt al rl claims = .ok () ↔
      ((∀ l, al = some l →
          ∃ s, lookupA claims "sub" = some s ∧ s ≠ "" ∧ s ∈ l) ∧
       (∀ l, rl = some l →
          ∃ s, lookupA claims "jti" = some s ∧ s ≠ "" ∧ s ∉ l)) := by
  simp only [check_jwt_eq_ok, checkJwtSub_ok_iff, checkJwtJti_ok_iff]

/-- Witness for C4: with allowlist `{"alice"}` and revocation list
`{"jti-5"}`, the claims `{"sub": "alice", "jti": "jti-1"}` pass. -/
theorem check_jwt_ok_iff_witness :
    check_jwt (some ["alice"]) (some ["jti-5"])
      [("sub", "alice"), ("jti", "jti-1")] = .ok () := by
  refine (check_jwt_ok_iff (some ["alice"]) (some ["jti-5"])
    [("sub", "alice"), ("jti", "jti-1")]).mpr ⟨?_, ?_⟩
  · rintro l ⟨rfl⟩
    exact ⟨"alice", by decide, by decide, by decide⟩
  · rintro l ⟨rfl⟩
    exact ⟨"jti-1", by decide, by decide, by decide⟩

/-- C5: whenever a readiness state file is configured, after
`reload_readiness_state` the tenant accepts connections exactly when
`is_online()` — regardless of whether the file held a valid state line, an
invalid line, was missing, or failed to read. -/
theorem reload_readiness_state_accepting (st : ReadinessFields) (f : String)
    (hf : st.readiness_state_file = some f) (fr : FileReadResult) :
    (reload_readiness_state st fr).accepting_connections =
      is_online (reload_readiness_state st fr).readiness := by
  unfold reload_readiness_state
  rw [hf]

/-- Witness for C5: a concrete tenant with a configured readiness file, on
the line "offline:maintenance", ends with `accepting_connections` equal to
`is_online` of its readiness (both false). -/
theorem reload_readiness_state_accepting_witness :
    (reload_readiness_state
      { readiness_state_file := some "/tmp/readiness",
        readiness := .Default, readiness_reason := "",
        accepting_connections := true }
      (.content "offline:maintenance")).accepting_connections =
      is_online (reload_readiness_state
        { readiness_state_file := some "/tmp/readiness",
          readiness := .Default, readiness_reason := "",
          accepting_connections := true }
        (.content "offline:maintenance")).readiness :=
  reload_readiness_state_accepting _ "/tmp/readiness" rfl _

/-- Helper for C2: if every connection the pool hands out in the next `n`
acquisitions is unhealthy, the loop discards all of them and fails. -/
theorem acquireLoop_all_unhealthy (pool : Nat → PGConnection) :
    ∀ n i : Nat, (∀ j, j < n → (pool (i + j)).healthy = false) →
      acquireLoop pool n i =
        (.error noHealthyPgconMsg,
          (List.range n).map (fun j => pool (i + j))) := by
  intro n
  induction n with
  | zero => intro i _; rfl
  | succ n ih =>
    intro i h
    have h0 : (pool i).healthy = false := by simpa using h 0 (Nat.succ_pos n)
    have hrest : ∀ j, j < n → (pool (i + 1 + j)).healthy = false := by
      intro j hj
      have := h (j + 1) (Nat.succ_lt_succ hj)
      simpa [Nat.add_assoc, Nat.add_comm 1 j] using this
    have hmap : (fun j => pool (i + 1 + j)) = fun j => pool (i + (j + 1)) := by
      funext j
      congr 1
      omega
    simp only [acquireLoop, h0, Bool.false_eq_true, if_false, ih (i + 1) hrest]
    rw [List.range_succ_eq_map]
    simp [List.map_map, Function.comp_def, hmap]

/-- Helper for C2: if the k-th acquired connection is the first healthy one
within the budget, the loop discards the k unhealthy ones before it and
returns it. -/
theorem acquireLoop_first_healthy (pool : Nat → PGConnection) :
    ∀ k n i : Nat, k < n → (pool (i + k)).healthy = true →
      (∀ j, j < k → (pool (i + j)).healthy = false) →
      acquireLoop pool n i =
        (.ok (pool (i + k)),
          (List.range k).map (fun j => pool (i + j))) := by
  intro k
  induction k with
  | zero =>
    intro n i hk hh _
    obtain ⟨m, rfl⟩ := Nat.exists_eq_succ_of_ne_zero (Nat.pos_iff_ne_zero.mp hk)
    simp only [Nat.add_zero] at hh
    simp [acquireLoop, hh]
  | succ k ih =>
    intro n i hk hh hprev
    obtain ⟨m, rfl⟩ := Nat.exists_eq_succ_of_ne_zero
      (Nat.pos_iff_ne_zero.mp (Nat.lt_of_le_of_lt (Nat.zero_le _) hk))
    have h0 : (pool i).healthy = false := by simpa using hprev 0 (Nat.succ_pos k)
    have hh2 : (pool (i + 1 + k)).healthy = true := by
      have : i + 1 + k = i + (k + 1) := by omega
      rw [this]; exact hh
    have hprev2 : ∀ j, j < k → (pool (i + 1 + j)).healthy = false := by
      intro j hj
      have := hprev (j + 1) (Nat.succ_lt_succ hj)
      simpa [Nat.add_assoc, Nat.add_comm 1 j] using this
    have hmap : (fun j => pool (i + 1 + j)) = fun j => pool (i + (j + 1)) := by
      funext j
      congr 1
      omega
    have hk2 : k < m := Nat.lt_of_succ_lt_succ hk
    have h1 : i + 1 + k = i + (k + 1) := by omega
    simp only [acquireLoop, h0, Bool.false_eq_true, if_false,
      ih m (i + 1) hk2 hh2 hprev2]
    rw [h1, List.range_succ_eq_map]
    simp [List.map_map, Function.comp_def, hmap]

/-- C2: `acquire_pgcon(dbname)` raises `BackendUnavailableError` at once
when `_pg_unavailable_msg` is set; otherwise it performs at most
`max_capacity` pool acquisitions, releases each unhealthy connection back
with `discard=True`, returns the first healthy connection, and raises
`BackendUnavailableError` when all `max_capacity` acquired connections were
unhealthy. -/
theorem acquire_pgcon_spec (msg : Option String) (max_capacity : Nat)
    (pool : Nat → PGConnection) :
    (∀ m, msg = some m →
      acquire_pgcon msg max_capacity pool = (.error (pgNotAvailableMsg m), [])) ∧
    (msg = none →
      (∀ j, j < max_capacity → (pool j).healthy = false) →
      acquire_pgcon msg max_capacity pool =
        (.error noHealthyPgconMsg, (List.range max_capacity).map pool)) ∧
    (msg = none →
      ∀ k, k < max_capacity → (pool k).healthy = true →
      (∀ j, j < k → (pool j).healthy = false) →
      acquire_pgcon msg max_capacity pool =
        (.ok (pool k), (List.range k).map pool)) := by
  refine ⟨fun m hm => by rw [hm]; rfl, fun hm hall => ?_, fun hm k hk hh hprev => ?_⟩
  · rw [hm]
    show acquireLoop pool max_capacity 0 = _
    have := acquireLoop_all_unhealthy pool max_capacity 0 (by simpa using hall)
    simpa using this
  · rw [hm]
    show acquireLoop pool max_capacity 0 = _
    have := acquireLoop_first_healthy pool k max_capacity 0 hk
      (by simpa using hh) (by simpa using hprev)
    simpa using this

/-- Witness for C2: with capacity 3 and a pool whose first connection is
unhealthy and second healthy, the call discards the first and returns the
second; with `_pg_unavailable_msg` set it fails immediately. -/
theorem acquire_pgcon_spec_witness :
    acquire_pgcon none 3 (fun i => { connId := i, healthy := i == 1 }) =
      (.ok { connId := 1, healthy := true },
        [{ connId := 0, healthy := false }]) ∧
    acquire_pgcon (some "backend down") 3
      (fun i => { connId := i, healthy := i == 1 }) =
      (.error (pgNotAvailableMsg "backend down"), []) := by
  constructor
  · have h := (acquire_pgcon_spec none 3
      (fun i => ({ connId := i, healthy := i == 1 } : PGConnection))).2.2
      rfl 1 (by decide) (by decide)
      (by intro j hj; rw [Nat.lt_one_iff] at hj; subst hj; decide)
    simpa using h
  · exact (acquire_pgcon_spec (some "backend down") 3
      (fun i => ({ connId := i, healthy := i == 1 } : PGConnection))).1
      "backend down" rfl

/-- C6: in the `_reconnect_sys_pgcon` loop (tenant running throughout), a
successful attempt ends the loop; an attempt failing with `OSError` or with
a `BackendError` coded `feature_not_supported`, `cannot_connect_now` or
`read_only_sql_transaction` is retried; a `BackendError` with any other code
is raised out of the loop as fatal; and each inter-attempt wait lasts at
most `SYSTEM_DB_RECONNECT_INTERVAL`, with the reconnect event cleared when
it short-circuits a wait (so it can skip at most that one wait). -/
theorem reconnect_sys_pgcon_retry_classification :
    (∀ (conn : PGConnection) (rest : List SysConnectAttempt),
      reconnectLoop (.ok conn :: rest) = .connected conn) ∧
    (∀ rest, reconnectLoop (.osError :: rest) = reconnectLoop rest) ∧
    (∀ rest, reconnectLoop
      (.backendError ERROR_FEATURE_NOT_SUPPORTED :: rest) =
        reconnectLoop rest) ∧
    (∀ rest, reconnectLoop (.backendError ERROR_CANNOT_CONNECT_NOW :: rest) =
      reconnectLoop rest) ∧
    (∀ rest, reconnectLoop
      (.backendError ERROR_READ_ONLY_SQL_TRANSACTION :: rest) =
        reconnectLoop rest) ∧
    (∀ code rest, retryableBackendCode code = false →
      reconnectLoop (.backendError code :: rest) = .fatal code) ∧
    (∀ evtFiredAt, (reconnectWait evtFiredAt).1 ≤
      SYSTEM_DB_RECONNECT_INTERVAL) ∧
    (∀ t : ℚ, t ≤ SYSTEM_DB_RECONNECT_INTERVAL →
      (reconnectWait (some t)).2 = false) := by
  have hfns : retryableBackendCode ERROR_FEATURE_NOT_SUPPORTED = true := by decide
  have hccn : retryableBackendCode ERROR_CANNOT_CONNECT_NOW = true := by decide
  have hros : retryableBackendCode ERROR_READ_ONLY_SQL_TRANSACTION = true := by
    decide
  refine ⟨fun conn rest => rfl, fun rest => rfl,
    fun rest => by simp [reconnectLoop, hfns],
    fun rest => by simp [reconnectLoop, hccn],
    fun rest => by simp [reconnectLoop, hros],
    fun code rest h => by simp [reconnectLoop, h],
    fun evtFiredAt => ?_, fun t ht => ?_⟩
  · rcases evtFiredAt with _ | t
    · exact le_refl _
    · by_cases ht : t ≤ SYSTEM_DB_RECONNECT_INTERVAL
      · have h0 : (0 : ℚ) ≤ SYSTEM_DB_RECONNECT_INTERVAL := by
          norm_num [SYSTEM_DB_RECONNECT_INTERVAL]
        simpa [reconnectWait, ht] using max_le ht h0
      · simp [reconnectWait, ht]
  · simp [reconnectWait, ht]

/-- Witness for C6: a trace failing with `cannot_connect_now` then `OSError`
then succeeding connects; a syntax-error code (42601) is fatal; a reconnect
event firing half a second into a wait keeps the wait within the interval. -/
theorem reconnect_sys_pgcon_retry_classification_witness :
    reconnectLoop [.backendError ERROR_CANNOT_CONNECT_NOW, .osError, .ok {}] =
      .connected {} ∧
    reconnectLoop [.backendError "42601"] = .fatal "42601" ∧
    (reconnectWait (some (1 / 2))).1 ≤ SYSTEM_DB_RECONNECT_INTERVAL := by
  have h := reconnect_sys_pgcon_retry_classification
  refine ⟨?_, ?_, h.2.2.2.2.2.2.1 (some (1 / 2))⟩
  · rw [h.2.2.2.1 [.osError, .ok {}], h.2.1 [.ok {}]]
    exact h.1 {} []
  · exact h.2.2.2.2.2.1 "42601" [] (by decide)

/-- Helper for C7/C9: looking up the key just set. -/
theorem lookupA_assocSet_self {K V : Type} [DecidableEq K]
    (m : List (K × V)) (k : K) (v : V) :
    lookupA (assocSet m k v) k = some v := by
  induction m with
  | nil => simp [assocSet, lookupA]
  | cons p rest ih =>
    obtain ⟨k0, v0⟩ := p
    by_cases h : k0 = k
    · simp [assocSet, h, lookupA]
    · simp [assocSet, h, lookupA, ih]

/-- Helper for C7/C9: setting one key leaves every other key's lookup
unchanged. -/
theorem lookupA_assocSet_ne {K V : Type} [DecidableEq K]
    (m : List (K × V)) (k k0 : K) (v0 : V) (h : k0 ≠ k) :
    lookupA (assocSet m k0 v0) k = lookupA m k := by
  induction m with
  | nil => simp [assocSet, lookupA, h]
  | cons p rest ih =>
    obtain ⟨k1, v1⟩ := p
    by_cases h1 : k1 = k0
    · subst h1
      simp [assocSet, lookupA, h]
    · simp [assocSet, h1, lookupA, ih]

/-- Helper for C7: the reported-config fold leaves the blob of a protocol
version that none of the remaining items mentions untouched. -/
theorem load_reported_config_lookup_notmem (data : List Nat)
    (typedescs : List ((Nat × Nat) × List Nat)) :
    ∀ (acc : List ((Nat × Nat) × List Nat)) (pv : Nat × Nat),
      pv ∉ typedescs.map Prod.fst →
      lookupA (load_reported_config data typedescs acc) pv = lookupA acc pv := by
  induction typedescs with
  | nil => intro acc pv _; rfl
  | cons q rest ih =>
    intro acc pv h
    have hne : q.1 ≠ pv := by
      intro he
      exact h (by simp [he.symm])
    have htail : pv ∉ rest.map Prod.fst := fun hm => h (by simp [hm])
    show lookupA (load_reported_config data rest (assocSet acc q.1 _)) pv = _
    rw [ih _ pv htail, lookupA_assocSet_ne _ _ _ _ hne]

/-- C7: for every protocol version registered in the type-descriptor map
(with distinct versions, as `dict.items()` yields), the blob stored by
`_load_reported_config` is the big-endian u32 length of the type descriptor,
the type descriptor, the big-endian u32 length of the config data, then the
config data. -/
theorem load_reported_config_blob (data : List Nat)
    (typedescs : List ((Nat × Nat) × List Nat)) :
    ∀ (report0 : List ((Nat × Nat) × List Nat)),
      (typedescs.map Prod.fst).Nodup →
      ∀ pv td, (pv, td) ∈ typedescs →
        lookupA (load_reported_config data typedescs report0) pv =
          some (packBEu32 td.length ++ td ++
            packBEu32 data.length ++ data) := by
  induction typedescs with
  | nil =>
    intro report0 _ pv td h
    cases h
  | cons q rest ih =>
    intro report0 hnodup pv td hmem
    obtain ⟨qk, qd⟩ := q
    have hnodup2 : qk ∉ rest.map Prod.fst ∧ (rest.map Prod.fst).Nodup := by
      rw [List.map_cons] at hnodup
      exact List.nodup_cons.mp hnodup
    rcases List.mem_cons.mp hmem with heq | htail
    · rw [Prod.mk.injEq] at heq
      obtain ⟨rfl, rfl⟩ := heq
      show lookupA (load_reported_config data rest (assocSet report0 pv _)) pv = _
      rw [load_reported_config_lookup_notmem data rest _ pv hnodup2.1,
        lookupA_assocSet_self]
    · exact ih _ hnodup2.2 pv td htail

/-- Witness for C7: with config data `[7, 8]` and type descriptors `[1]`
for protocol 1.0 and `[2, 3]` for protocol 2.0, the stored 2.0 blob is
`00 00 00 02 | 02 03 | 00 00 00 02 | 07 08`. -/
theorem load_reported_config_blob_witness :
    lookupA (load_reported_config [7, 8]
      [((1, 0), [1]), ((2, 0), [2, 3])] []) (2, 0) =
      some [0, 0, 0, 2, 2, 3, 0, 0, 0, 2, 7, 8] := by
  have h := load_reported_config_blob [7, 8]
    [((1, 0), [1]), ((2, 0), [2, 3])] [] (by decide) (2, 0) [2, 3] (by decide)
  simpa [packBEu32] using h

/-- Helper for C9: after `unregister_db` the dbname has no entry. -/
theorem lookupA_unregister_self (idx : DbIndex) (dbname : String) :
    lookupA (unregister_db idx dbname) dbname = none := by
  induction idx with
  | nil => rfl
  | cons p rest ih =>
    obtain ⟨k, v⟩ := p
    by_cases h : k = dbname
    · simpa [unregister_db, h] using ih
    · simpa [unregister_db, lookupA, h] using ih

/-- Counterexample for C9 as stated: with the index holding an entry for
"app", a call whose connection acquisition fails with an invalid-catalog
error (database concurrently dropped) does NOT leave that entry unchanged:
`_acquire_intro_pgcon` unregisters it. -/
theorem early_introspect_db_counterexample :
    (early_introspect_db [("app", { extensions := ["graphql"] })] "app"
        .invalidCatalog [] none).2 ≠
      [("app", { extensions := ["graphql"] })] ∧
    lookupA (early_introspect_db [("app", { extensions := ["graphql"] })]
        "app" .invalidCatalog [] none).2 "app" = none := by
  constructor
  · decide
  · decide

/-- C9 (amended): `_early_introspect_db(dbname)` leaves an existing entry
for `dbname` unchanged — except when the connection acquisition reports the
database concurrently dropped (invalid catalog), in which case the entry is
unregistered; it registers a new entry (extensions only, all other fields
null) only when `has_db(dbname)` is false, and it re-checks `has_db` after
the extension introspection so a concurrently registered entry is never
replaced. -/
theorem early_introspect_db_frame (idx : DbIndex) (dbname : String)
    (extns : List String) (conc : Option DbEntry) :
    (has_db idx dbname = true →
      early_introspect_db idx dbname .acquired extns conc = (.ok (), idx)) ∧
    (∀ m, early_introspect_db idx dbname (.otherFailure m) extns conc =
      (.error m, idx)) ∧
    (has_db idx dbname = true →
      early_introspect_db idx dbname .invalidCatalog extns conc =
        (.ok (), unregister_db idx dbname) ∧
      lookupA (unregister_db idx dbname) dbname = none) ∧
    (has_db idx dbname = false →
      early_introspect_db idx dbname .invalidCatalog extns conc =
        (.ok (), idx)) ∧
    (∀ e, has_db idx dbname = false →
      early_introspect_db idx dbname .acquired extns (some e) =
        (.ok (), register_db idx dbname e) ∧
      lookupA (register_db idx dbname e) dbname = some e) ∧
    (has_db idx dbname = false →
      early_introspect_db idx dbname .acquired extns none =
        (.ok (), register_db idx dbname
          { user_schema_pickle := none, db_config := none,
            reflection_cache := none, backend_ids := none,
            extensions := extns, ext_config_settings := none })) := by
  refine ⟨fun h => ?_, fun m => rfl, fun h => ⟨?_, lookupA_unregister_self idx dbname⟩,
    fun h => ?_, fun e h => ⟨?_, lookupA_assocSet_self idx dbname e⟩, fun h => ?_⟩
  · simp [early_introspect_db, acquire_intro_pgcon, h]
  · simp [early_introspect_db, acquire_intro_pgcon, h]
  · simp [early_introspect_db, acquire_intro_pgcon, h]
  · have h2 : has_db (register_db idx dbname e) dbname = true := by
      simp [has_db, register_db, lookupA_assocSet_self]
    simp [early_introspect_db, acquire_intro_pgcon, h, h2]
  · simp [early_introspect_db, acquire_intro_pgcon, h, register_db]

/-- Witness for C9 (amended): an existing entry survives a successful call
untouched, and on a fresh dbname the call registers the extensions-only
entry. -/
theorem early_introspect_db_frame_witness :
    early_introspect_db [("app", { extensions := ["graphql"] })] "app"
        .acquired ["http"] none =
      (.ok (), [("app", { extensions := ["graphql"] })]) ∧
    early_introspect_db [] "fresh" .acquired ["graphql"] none =
      (.ok (), [("fresh", { extensions := ["graphql"] })]) := by
  have h1 := (early_introspect_db_frame
    [("app", { extensions := ["graphql"] })] "app" ["http"] none).1 (by decide)
  have h2 := (early_introspect_db_frame [] "fresh" ["graphql"] none).2.2.2.2.2
    (by decide)
  exact ⟨h1, h2⟩

/-- Helper for C3: membership after the `set.add`. -/
theorem mem_insertStr (x : String) (s : List String) : x ∈ insertStr x s := by
  unfold insertStr
  split_ifs with h
  · exact h
  · exact List.mem_cons_self x s

/-- Helper for C3: a non-`ExecutionError` from the first poll propagates out
of the retry loop immediately (the loop retries only on `ExecutionError`). -/
theorem retryLoopRun_other_error (dbname : String)
    (poll : Nat → Except DDLError (List Nat)) (m : String)
    (h : poll 0 = .error (.otherError m)) :
    retryLoopRun (fun i => pg_ensure_database_not_connected dbname (poll i)) =
      .error (.otherError m) := by
  simp [retryLoopRun, retryGo, pg_ensure_database_not_connected, h]

/-- Helper for C3: when every poll yields a pid list, the retry loop
succeeds exactly when some poll scheduled inside the 10-second timeout
(attempt i starts at elapsed time 2^i - 1 under the exponential backoff)
returns the empty list. -/
theorem retryLoopRun_ok_iff (dbname : String)
    (poll : Nat → Except DDLError (List Nat))
    (hall : ∀ i, ∃ l, poll i = .ok l) :
    (retryLoopRun (fun i => pg_ensure_database_not_connected dbname (poll i)) =
        .ok () ↔
      ∃ i, (2 : ℚ) ^ i - 1 ≤ 10 ∧ poll i = .ok []) := by
  obtain ⟨l0, h0⟩ := hall 0
  obtain ⟨l1, h1⟩ := hall 1
  obtain ⟨l2, h2⟩ := hall 2
  obtain ⟨l3, h3⟩ := hall 3
  by_cases hl0 : l0 = []
  · refine iff_of_true ?_ ⟨0, by norm_num, by rw [h0, hl0]⟩
    norm_num [retryLoopRun, retryGo, pg_ensure_database_not_connected, h0, hl0]
  · by_cases hl1 : l1 = []
    · refine iff_of_true ?_ ⟨1, by norm_num, by rw [h1, hl1]⟩
      norm_num [retryLoopRun, retryGo, pg_ensure_database_not_connected,
        expBackoff, h0, h1, hl0, hl1]
    · by_cases hl2 : l2 = []
      · refine iff_of_true ?_ ⟨2, by norm_num, by rw [h2, hl2]⟩
        norm_num [retryLoopRun, retryGo, pg_ensure_database_not_connected,
          expBackoff, h0, h1, h2, hl0, hl1, hl2]
      · by_cases hl3 : l3 = []
        · refine iff_of_true ?_ ⟨3, by norm_num, by rw [h3, hl3]⟩
          norm_num [retryLoopRun, retryGo, pg_ensure_database_not_connected,
            expBackoff, h0, h1, h2, h3, hl0, hl1, hl2, hl3]
        · have hlhs : retryLoopRun
              (fun i => pg_ensure_database_not_connected dbname (poll i)) =
              .error (.executionError (beingAccessedMsg dbname)) := by
            norm_num [retryLoopRun, retryGo, pg_ensure_database_not_connected,
              expBackoff, h0, h1, h2, h3, hl0, hl1, hl2, hl3]
          rw [hlhs]
          constructor
          · intro h
            cases h
          · rintro ⟨i, hle, hpoll⟩
            have hi : i ≤ 3 := by
              by_contra hgt
              push_neg at hgt
              have h4 : (2 : ℚ) ^ 4 ≤ 2 ^ i :=
                pow_le_pow_right₀ (by norm_num) (by omega)
              norm_num at h4
              linarith
            interval_cases i
            · rw [h0] at hpoll
              injection hpoll with he
              exact absurd he hl0
            · rw [h1] at hpoll
              injection hpoll with he
              exact absurd he hl1
            · rw [h2] at hpoll
              injection hpoll with he
              exact absurd he hl2
            · rw [h3] at hpoll
              injection hpoll with he
              exact absurd he hl3

/-- C3: `ensure_database_not_connected(dbname)` fails immediately with
`ExecutionError` (state untouched) when the database index counts a live
view for `dbname`; otherwise it adds `dbname` to `_block_new_connections`,
prunes that database's idle pool connections, emits the
`ensure-database-not-used` sysevent, and polls `pg_stat_activity` in a
retry loop (exponential backoff, 10-second timeout, retrying only on
`ExecutionError`), succeeding exactly when some poll within the timeout
finds no remaining session. -/
theorem ensure_database_not_connected_spec (st : EnsureState) (dbname : String)
    (poll : Nat → Except DDLError (List Nat)) :
    (viewCount st dbname ≠ 0 →
      ensure_database_not_connected st dbname poll =
        (.error (.executionError (beingAccessedMsg dbname)), st)) ∧
    (viewCount st dbname = 0 →
      (ensure_database_not_connected st dbname poll).2.block_new_connections =
        insertStr dbname st.block_new_connections ∧
      dbname ∈
        (ensure_database_not_connected st dbname poll).2.block_new_connections ∧
      (ensure_database_not_connected st dbname poll).2.poolIdle =
        st.poolIdle.filter (fun p => p.1 ≠ dbname) ∧
      (ensure_database_not_connected st dbname poll).2.sysevents =
        st.sysevents ++ [("ensure-database-not-used", dbname)] ∧
      ((∀ i, ∃ l, poll i = .ok l) →
        ((ensure_database_not_connected st dbname poll).1 = .ok () ↔
          ∃ i, (2 : ℚ) ^ i - 1 ≤ 10 ∧ poll i = .ok [])) ∧
      (∀ m, poll 0 = .error (.otherError m) →
        (ensure_database_not_connected st dbname poll).1 =
          .error (.otherError m))) := by
  constructor
  · intro h
    simp [ensure_database_not_connected, h]
  · intro h
    have hif : ensure_database_not_connected st dbname poll =
        (retryLoopRun
          (fun i => pg_ensure_database_not_connected dbname (poll i)),
         { st with
            block_new_connections := insertStr dbname st.block_new_connections,
            poolIdle := prune_inactive_connections st.poolIdle dbname,
            sysevents :=
              st.sysevents ++ [("ensure-database-not-used", dbname)] }) := by
      simp [ensure_database_not_connected, h]
    rw [hif]
    exact ⟨rfl, mem_insertStr dbname st.block_new_connections, rfl, rfl,
      fun hall => retryLoopRun_ok_iff dbname poll hall,
      fun m hm => retryLoopRun_other_error dbname poll m hm⟩

/-- Witness for C3: with one registered database "app" carrying no live
views, polls that see one lingering session and then none, the call
succeeds, blocks "app", prunes its idle connection and emits the
sysevent. -/
theorem ensure_database_not_connected_spec_witness :
    (ensure_database_not_connected
      { dbindexViews := some [("app", 0)], block_new_connections := [],
        poolIdle := [("app", 5), ("other", 6)], sysevents := [] } "app"
      (fun i => .ok (if i = 0 then [42] else []))).1 = .ok () ∧
    (ensure_database_not_connected
      { dbindexViews := some [("app", 0)], block_new_connections := [],
        poolIdle := [("app", 5), ("other", 6)], sysevents := [] } "app"
      (fun i => .ok (if i = 0 then [42] else []))).2 =
      { dbindexViews := some [("app", 0)], block_new_connections := ["app"],
        poolIdle := [("other", 6)],
        sysevents := [("ensure-database-not-used", "app")] } := by
  have h := (ensure_database_not_connected_spec
    { dbindexViews := some [("app", 0)], block_new_connections := [],
      poolIdle := [("app", 5), ("other", 6)], sysevents := [] } "app"
    (fun i => .ok (if i = 0 then [42] else []))).2 (by decide)
  refine ⟨(h.2.2.2.2.1 (fun i => ⟨_, rfl⟩)).mpr ⟨1, by norm_num, by norm_num⟩,
    by decide⟩

end TenantCore
